import Mathlib

/-!
Verification of the project-name normalization and validation pipeline of
pyhatchery (src/pyhatchery/components/name_service.py, src/pyhatchery/cli.py,
src/pyhatchery/components/interactive_wizard.py).

Strings are modelled at the Unicode-scalar-value level (`Char` = one Python
code point); the regexes involved are ASCII-only (`re.ASCII`), and Python's
`str.lower()` is modelled by the ASCII case map `Char.toLower`, which agrees
with Python on every ASCII string.

Functions imported by cli.py whose defining files are not part of the
repository snapshot (`has_invalid_characters`, `is_valid_python_package_name`,
`derive_python_package_slug` from components/name_service.py, and
`check_pypi_availability` from components/http_client.py, `load_from_env`
from components/config_loader.py) are modelled from the spec, as marked in
their doc comments; the external collaborators (availability lookup,
environment source, terminal input) enter as explicit parameters.
-/

namespace PyHatchery

/-! ### Character groundwork -/

theorem charOfNat_toNat (n : Nat) (h : n.isValidChar) : (Char.ofNat n).toNat = n := by
  simp [Char.ofNat, h, Char.ofNatAux, Char.toNat, UInt32.toNat, BitVec.toNat_ofNatLt]

theorem toLower_toNat (c : Char) :
    (Char.toLower c).toNat = if 65 ≤ c.toNat ∧ c.toNat ≤ 90 then c.toNat + 32 else c.toNat := by
  unfold Char.toLower
  split <;> rename_i h
  · rw [if_pos ⟨h.1, h.2⟩]
    exact charOfNat_toNat _ (Or.inl (by omega))
  · rw [if_neg (by omega)]

theorem toLower_eq_self (c : Char) (h : ¬(65 ≤ c.toNat ∧ c.toNat ≤ 90)) :
    Char.toLower c = c := by
  unfold Char.toLower
  rw [if_neg (by omega)]

theorem toLower_toLower (c : Char) : Char.toLower (Char.toLower c) = Char.toLower c := by
  apply toLower_eq_self
  rw [toLower_toNat]
  split <;> omega

theorem char_toNat_inj {a b : Char} (h : a.toNat = b.toNat) : a = b := by
  apply Char.eq_of_val_eq
  apply UInt32.eq_of_toBitVec_eq
  exact BitVec.eq_of_toNat_eq h

theorem char_beq_eq (c d : Char) : (c == d) = decide (c.toNat = d.toNat) := by
  by_cases h : c = d
  · simp [h]
  · have hne : c.toNat ≠ d.toNat := fun hn => h (char_toNat_inj hn)
    simp [h, hne]

/-! ### name_service.py -/

/-- One character of the class `[a-z0-9]` of `_PEP503_VALID_RE` under
`re.IGNORECASE | re.ASCII`: an ASCII letter (either case) or digit. -/
def isAsciiAlnumCI (c : Char) : Bool :=
  decide ((97 ≤ c.toNat ∧ c.toNat ≤ 122) ∨ (65 ≤ c.toNat ∧ c.toNat ≤ 90) ∨
    (48 ≤ c.toNat ∧ c.toNat ≤ 57))

/-- One character of the class `[a-z0-9._-]` of `_PEP503_VALID_RE`
(IGNORECASE, ASCII). -/
def pep503Class (c : Char) : Bool :=
  isAsciiAlnumCI c || c == '.' || c == '_' || c == '-'

/-- The part of `_PEP503_VALID_RE` after its first character:
`[a-z0-9._-]*[a-z0-9]` — every character but the last is in the class, the
last is alphanumeric. -/
def pep503Tail : List Char → Bool
  | [] => false
  | [d] => isAsciiAlnumCI d
  | d :: ds => pep503Class d && pep503Tail ds

/-- `_PEP503_VALID_RE.match`: the whole string matches
`^[a-z0-9](?:[a-z0-9._-]*[a-z0-9])?$` with IGNORECASE and ASCII. -/
def pep503MatchList : List Char → Bool
  | [] => false
  | [c] => isAsciiAlnumCI c
  | c :: cs => isAsciiAlnumCI c && pep503Tail cs

/-- `_PEP503_VALID_RE.match(s)` as Python evaluates it: without
`re.MULTILINE`, `$` matches at the end of the string and also just before a
newline that ends the string, so the pattern accepts its body optionally
followed by one final `"\n"` (e.g. `"a\n"` matches). -/
def pep503_matches (s : String) : Bool :=
  pep503MatchList s.data ||
    ((s.data.getLast? == some '\n') && pep503MatchList s.data.dropLast)

/-- `_MAX_LEN = 32` in name_service.py. -/
def _MAX_LEN : Nat := 32

/-- Diagnostic of `pep503_name_ok` rule 1 (regex shape). -/
def pep503ViolationMsg (s : String) : String :=
  s!"Error: Project name '{s}' violates PEP 503 conventions."

/-- Diagnostic of `pep503_name_ok` rule 2 (length cap). -/
def pep503TooLongMsg (s : String) : String :=
  s!"Error: Project name '{s}' is too long (max {_MAX_LEN} chars)."

/-- Diagnostic of `pep503_name_ok` rule 3 (underscore cap). -/
def pep503UnderscoreMsg : String :=
  "Error: Project name cannot contain too many underscores."

/-- `pep503_name_ok` from name_service.py: the regex shape check, then the
length cap, then the underscore cap, short-circuiting in that order. -/
def pep503_name_ok (project_name : String) : Bool × Option String :=
  if !pep503_matches project_name then
    (false, some (pep503ViolationMsg project_name))
  else if project_name.length > _MAX_LEN then
    (false, some (pep503TooLongMsg project_name))
  else if project_name.data.count '_' > 2 then
    (false, some pep503UnderscoreMsg)
  else
    (true, none)

/-- One character of the separator class `[-_.]` of
`re.sub(r"[-_.]+", "-", name)` in `pep503_normalize`. -/
def isSep (c : Char) : Bool :=
  c == '-' || c == '_' || c == '.'

/-- `re.sub(r"[-_.]+", "-", name)` on the character list: every maximal run
of separator characters becomes a single `'-'`. The flag records whether the
previous character belonged to a separator run already rewritten. -/
def subSepRuns : List Char → Bool → List Char
  | [], _ => []
  | c :: cs, inRun =>
    if isSep c then
      if inRun then subSepRuns cs true else '-' :: subSepRuns cs true
    else
      c :: subSepRuns cs false

/-- `pep503_normalize` from name_service.py:
`re.sub(r"[-_.]+", "-", name).lower()`. -/
def pep503_normalize (name : String) : String :=
  ⟨(subSepRuns name.data false).map Char.toLower⟩

theorem subSepRuns_true_eq_dropWhile (cs : List Char) :
    subSepRuns cs true = subSepRuns (cs.dropWhile isSep) false := by
  induction cs with
  | nil => rfl
  | cons c cs ih =>
    by_cases h : isSep c
    · simpa [subSepRuns, h, List.dropWhile_cons] using ih
    · simp [subSepRuns, h, List.dropWhile_cons]

theorem isSep_toLower (c : Char) : isSep (Char.toLower c) = isSep c := by
  by_cases h : 65 ≤ c.toNat ∧ c.toNat ≤ 90
  · have hl : (Char.toLower c).toNat = c.toNat + 32 := by rw [toLower_toNat, if_pos h]
    simp only [isSep, char_beq_eq]
    have h1 : ('-' : Char).toNat = 45 := by decide
    have h2 : ('_' : Char).toNat = 95 := by decide
    have h3 : ('.' : Char).toNat = 46 := by decide
    rw [hl, h1, h2, h3]
    rw [Bool.eq_iff_iff]
    simp only [Bool.or_eq_true, decide_eq_true_eq]
    omega
  · rw [toLower_eq_self c h]

/-- The ASCII fragment of the `str.lower()` case-mapping table, in the
one-to-many shape of the full Unicode table. -/
def asciiLowerChar (c : Char) : List Char := [Char.toLower c]

theorem isSep_toNat {c : Char} (h : isSep c = true) :
    c.toNat = 45 ∨ c.toNat = 95 ∨ c.toNat = 46 := by
  have e1 : ('-' : Char).toNat = 45 := by decide
  have e2 : ('_' : Char).toNat = 95 := by decide
  have e3 : ('.' : Char).toNat = 46 := by decide
  simp only [isSep, char_beq_eq, Bool.or_eq_true, decide_eq_true_eq, e1, e2, e3] at h
  tauto

/-- `Char.toLower` is the ASCII fragment of the `str.lower()` table: it
satisfies the four Unicode case-mapping facts the generic proofs assume. -/
theorem asciiLowerChar_facts :
    (∀ c, isSep c = true → asciiLowerChar c = [c]) ∧
      (∀ c, isSep c = false → ∀ d ∈ asciiLowerChar c, isSep d = false) ∧
      (∀ c, asciiLowerChar c ≠ []) ∧
      (∀ c, (asciiLowerChar c).flatMap asciiLowerChar = asciiLowerChar c) := by
  refine ⟨?_, ?_, ?_, ?_⟩
  · intro c h
    unfold asciiLowerChar
    rcases isSep_toNat h with h' | h' | h' <;> rw [toLower_eq_self c (by omega)]
  · intro c h d hd
    simp only [asciiLowerChar, List.mem_singleton] at hd
    subst hd
    rw [isSep_toLower, h]
  · intro c
    simp [asciiLowerChar]
  · intro c
    simp [asciiLowerChar, toLower_toLower]

/-- The first character of the list is an ASCII alphanumeric. -/
def headAlnum (l : List Char) : Bool :=
  match l.head? with
  | some c => isAsciiAlnumCI c
  | none => false

/-- The last character of the list is an ASCII alphanumeric. -/
def lastAlnum (l : List Char) : Bool :=
  match l.getLast? with
  | some c => isAsciiAlnumCI c
  | none => false

/-- The claim-side reading of `_PEP503_VALID_RE`: nonempty, starts and ends
with an ASCII alphanumeric, every interior character in the `[a-z0-9._-]`
class (case-insensitive). -/
def pep503Shape (l : List Char) : Bool :=
  headAlnum l && lastAlnum l && l.tail.dropLast.all pep503Class

theorem lastAlnum_cons_cons (d e : Char) (es : List Char) :
    lastAlnum (d :: e :: es) = lastAlnum (e :: es) := by
  simp [lastAlnum, List.getLast?_cons_cons]

theorem pep503Tail_eq : ∀ (ds : List Char) (d : Char),
    pep503Tail (d :: ds) = ((d :: ds).dropLast.all pep503Class && lastAlnum (d :: ds)) := by
  intro ds
  induction ds with
  | nil => intro d; simp [pep503Tail, lastAlnum]
  | cons e es ih =>
    intro d
    show (pep503Class d && pep503Tail (e :: es)) = _
    rw [ih e, lastAlnum_cons_cons]
    simp [List.dropLast_cons₂, Bool.and_assoc]

theorem pep503MatchList_eq_shape (l : List Char) : pep503MatchList l = pep503Shape l := by
  match l with
  | [] => rfl
  | [c] =>
    simp [pep503MatchList, pep503Shape, headAlnum, lastAlnum, Bool.and_self]
  | c :: d :: ds =>
    show (isAsciiAlnumCI c && pep503Tail (d :: ds)) = _
    rw [pep503Tail_eq]
    simp only [pep503Shape, headAlnum, lastAlnum_cons_cons, List.head?_cons,
      List.tail_cons]
    cases isAsciiAlnumCI c <;> cases lastAlnum (d :: ds) <;>
      cases (d :: ds).dropLast.all pep503Class <;> rfl

theorem string_length_eq_data (s : String) : s.length = s.data.length := rfl

theorem pep503_matches_true_iff (s : String) :
    pep503_matches s = true ↔
      (pep503Shape s.data = true ∨
        (s.data.getLast? = some '\n' ∧ pep503Shape s.data.dropLast = true)) := by
  unfold pep503_matches
  rw [pep503MatchList_eq_shape, pep503MatchList_eq_shape]
  simp

theorem pep503_name_ok_valid_iff (s : String) :
    (pep503_name_ok s).1 = true ↔
      ((pep503Shape s.data = true ∨
          (s.data.getLast? = some '\n' ∧ pep503Shape s.data.dropLast = true)) ∧
        s.length ≤ 32 ∧ s.data.count '_' ≤ 2) := by
  unfold pep503_name_ok
  by_cases h1 : pep503_matches s
  · rw [if_neg (by simp [h1])]
    by_cases h2 : s.length > _MAX_LEN
    · rw [if_pos h2]
      simp only [_MAX_LEN] at h2
      constructor
      · intro hfalse
        exact absurd hfalse (by simp)
      · rintro ⟨-, hlen, -⟩
        omega
    · rw [if_neg h2]
      simp only [_MAX_LEN] at h2
      by_cases h3 : s.data.count '_' > 2
      · rw [if_pos h3]
        constructor
        · intro hfalse
          exact absurd hfalse (by simp)
        · rintro ⟨-, -, hcnt⟩
          omega
      · rw [if_neg h3]
        constructor
        · intro _
          exact ⟨(pep503_matches_true_iff s).mp h1, by omega, by omega⟩
        · intro _
          rfl
  · rw [if_pos (by simp [h1])]
    refine ⟨fun hfalse => absurd hfalse (by simp), fun hr => ?_⟩
    exact absurd ((pep503_matches_true_iff s).mpr hr.1) h1

/-- C1 (amended): `pep503_name_ok` reports valid iff the string — after
discounting a single trailing newline, which Python's `$` permits — starts
and ends with an ASCII alphanumeric character and every interior character
is an ASCII alphanumeric or one of `.`, `_`, `-` (case-insensitive), AND the
whole string is at most 32 characters long AND contains at most 2
underscores; `"-abc"` and `"abc-"` are invalid, `"a"` is valid, `"My.Name"`
is valid (the regex is case-insensitive, so the mixed-case example the claim
calls invalid passes), and `"a\n"` is valid (`re.match` succeeds just before
the trailing newline). -/
theorem pep503_name_ok_characterization :
    (∀ s : String, (pep503_name_ok s).1 = true ↔
        ((pep503Shape s.data = true ∨
            (s.data.getLast? = some '\n' ∧ pep503Shape s.data.dropLast = true)) ∧
          s.length ≤ 32 ∧ s.data.count '_' ≤ 2)) ∧
      (pep503_name_ok "-abc").1 = false ∧
      (pep503_name_ok "abc-").1 = false ∧
      (pep503_name_ok "a").1 = true ∧
      (pep503_name_ok "My.Name").1 = true ∧
      pep503_name_ok "a\n" = (true, none) :=
  ⟨pep503_name_ok_valid_iff, rfl, rfl, rfl, rfl, rfl⟩

/-- C1 counterexample: the claim as stated is false on the code —
`pep503_name_ok "My.Name"` is valid (the claim says invalid), and the
33-character all-letter string satisfies the claimed shape condition yet is
reported invalid (the function also enforces a length cap the claim
excludes). -/
theorem pep503_name_ok_claim_counterexample :
    pep503_name_ok "My.Name" = (true, none) ∧
      pep503_matches "aaaaaaaaaaaaaaaaaaaaaaaaaaaaaaaaa" = true ∧
      (pep503_name_ok "aaaaaaaaaaaaaaaaaaaaaaaaaaaaaaaaa").1 = false :=
  ⟨rfl, rfl, rfl⟩

/-- C4: `pep503_name_ok` applies exactly three rules in order, short-circuiting
at the first failure with that rule's diagnostic: the regex shape check
(`pep503_matches`, with Python's `$`-before-trailing-newline semantics;
"violates PEP 503 conventions"), then length at most 32 ("too long (max 32
chars)"), then at most 2 underscores ("cannot contain too many
underscores"); a 33-character
all-letter string fails with the length diagnostic, an otherwise-conformant
string with 3 underscores fails with the underscore diagnostic, and
`"valid_name"` is valid. -/
theorem pep503_name_ok_three_rules :
    (∀ s : String, pep503_matches s = false →
        pep503_name_ok s = (false, some (pep503ViolationMsg s))) ∧
      (∀ s : String, pep503_matches s = true → 32 < s.length →
        pep503_name_ok s = (false, some (pep503TooLongMsg s))) ∧
      (∀ s : String, pep503_matches s = true → s.length ≤ 32 → 2 < s.data.count '_' →
        pep503_name_ok s = (false, some pep503UnderscoreMsg)) ∧
      (∀ s : String, pep503_matches s = true → s.length ≤ 32 → s.data.count '_' ≤ 2 →
        pep503_name_ok s = (true, none)) ∧
      pep503_name_ok "aaaaaaaaaaaaaaaaaaaaaaaaaaaaaaaaa" =
        (false, some "Error: Project name 'aaaaaaaaaaaaaaaaaaaaaaaaaaaaaaaaa' is too long (max 32 chars).") ∧
      pep503_name_ok "a_b_c_d" =
        (false, some "Error: Project name cannot contain too many underscores.") ∧
      pep503_name_ok "valid_name" = (true, none) := by
  refine ⟨?_, ?_, ?_, ?_, rfl, rfl, rfl⟩
  · intro s h1
    unfold pep503_name_ok
    rw [if_pos (by simp [h1])]
  · intro s h1 h2
    unfold pep503_name_ok
    rw [if_neg (by simp [h1]), if_pos (by simpa [_MAX_LEN] using h2)]
  · intro s h1 h2 h3
    unfold pep503_name_ok
    rw [if_neg (by simp [h1]), if_neg (by simpa [_MAX_LEN] using h2), if_pos h3]
  · intro s h1 h2 h3
    unfold pep503_name_ok
    rw [if_neg (by simp [h1]), if_neg (by simpa [_MAX_LEN] using h2),
      if_neg (by omega)]

/-! ### Collaborators of cli.py that are absent from the snapshot -/

/-- Modelled from the spec: the character-validity gate of §4.4 step 1 and §7
("fatal precondition: disallowed characters"); its defining code,
`has_invalid_characters` in components/name_service.py, is not in the
repository snapshot (cli.py only imports it). The accepted character set
follows `validate_project_name` in src/pyhatchery/names.py: alphanumeric
characters (ASCII in this model), `-` and `_`. The diagnostic names the
offending characters, as in the repository's test suite ("Project name
contains invalid characters: '!'"). -/
def has_invalid_characters (name : String) : Bool × Option String :=
  if name.data.all (fun c => isAsciiAlnumCI c || c == '-' || c == '_') then
    (false, none)
  else
    (true, some ("Project name contains invalid characters: '" ++
      String.mk (name.data.filter (fun c => !(isAsciiAlnumCI c || c == '-' || c == '_'))) ++ "'"))

/-- Modelled from the spec: §4.3 `deriveIdentifier` — substitute the
non-identifier separator (the §8 scenario maps registry slug `"my-project"`
to identifier `"my_project"`, i.e. `-` becomes `_`); its defining code,
`derive_python_package_slug` in components/name_service.py, is not in the
snapshot. -/
def derive_python_package_slug (pypi_slug : String) : String :=
  ⟨pypi_slug.data.map (fun c => if c == '-' then '_' else c)⟩

/-- Modelled from the spec: §4.2 `checkPackageIdentifier`; its defining code,
`is_valid_python_package_name` in components/name_service.py, is not in the
snapshot. The spec's three rules (shape regex, max 32 chars, at most 2
underscores, short-circuiting in that order) are exactly the rules of
`pep503_name_ok`, so the model reuses it. -/
def is_valid_python_package_name (name : String) : Bool × Option String :=
  pep503_name_ok name

/-- Result type of the external availability lookup, spec §6:
`checkAvailability(slug) -> (isTaken: boolean | null, errorMessage: string | null)`
(`check_pypi_availability` of components/http_client.py is not in the
snapshot; the pipeline is parametrised by its result). -/
structure PypiResult where
  is_taken : Option Bool
  error_msg : Option String

/-- Python truthiness of `Optional[str]`: `None` and `""` are falsy. -/
def pyTruthyOptStr : Option String → Bool
  | none => false
  | some s => !(s == "")

/-- Python truthiness of `Optional[bool]`: `None` and `False` are falsy. -/
def pyTruthyOptBool : Option Bool → Bool
  | none => false
  | some b => b

/-- Python rendering of an `Optional[str]` inside an f-string. -/
def optStr : Option String → String
  | some m => m
  | none => "None"

/-! ### cli.py -/

/-- The "lookup failed" warning of `_perform_project_name_checks`. -/
def pypiFailWarning (pypi_slug err : String) : String :=
  "PyPI availability check for '" ++ pypi_slug ++ "' failed: " ++ err

/-- The "name taken" warning of `_perform_project_name_checks`. -/
def pypiTakenWarning (pypi_slug : String) : String :=
  "The name '" ++ pypi_slug ++ "' might already be taken on PyPI. " ++
    "You may want to choose a different name if you plan to publish " ++
    "this package publicly."

/-- The "identifier not PEP 8 compliant" warning of
`_perform_project_name_checks`. -/
def pythonSlugWarning (python_slug original_input_name msg : String) : String :=
  "Derived Python package name '" ++ python_slug ++ "' (from input '" ++
    original_input_name ++ "') is not PEP 8 compliant: " ++ msg

/-- cli.py lines 54-64: fold the availability result into warnings —
`if pypi_error_msg: append(fail) elif is_pypi_taken: append(taken)`. -/
def availabilityWarnings (pypi : PypiResult) (pypi_slug : String) : List String :=
  if pyTruthyOptStr pypi.error_msg then
    [pypiFailWarning pypi_slug (optStr pypi.error_msg)]
  else if pyTruthyOptBool pypi.is_taken then
    [pypiTakenWarning pypi_slug]
  else
    []

/-- cli.py lines 66-75: the package-identifier convention check on the
derived slug, appending its warning on failure. -/
def identifierWarnings (original_input_name python_slug : String) : List String :=
  let r := is_valid_python_package_name python_slug
  if !r.1 then [pythonSlugWarning python_slug original_input_name (optStr r.2)]
  else []

/-- `_perform_project_name_checks` from cli.py: availability warnings, then
identifier warnings; returns (the warning list, the lines displayed). -/
def _perform_project_name_checks (pypi : PypiResult)
    (original_input_name pypi_slug python_slug : String) :
    List String × List String :=
  let warnings := availabilityWarnings pypi pypi_slug ++
    identifierWarnings original_input_name python_slug
  let displayed :=
    if warnings.isEmpty then []
    else
      ("Problems were found during project name checks. " ++
        "You can choose to proceed or cancel.") ::
        warnings.map (fun w => "Warning: " ++ w)
  (warnings, displayed)

/-- `ProjectNameDetails` from cli.py. -/
structure ProjectNameDetails where
  original_arg : String
  pypi_slug : String
  python_slug : String
  name_warnings : List String

/-- Outcome of `_process_project_name`: `ctx.exit(code)` or the assembled
details. -/
inductive ProcessOutcome where
  | exited (code : Nat)
  | ok (details : ProjectNameDetails)

/-- The `click.secho` warning shown when `pep503_name_ok` fails on the raw
name (cli.py lines 255-261); displayed, never put into the warning list. -/
def nameOkDisplay (raw : String) : List String :=
  if !(pep503_name_ok raw).1 then
    ["Warning: Project name '" ++ raw ++ "': " ++ optStr (pep503_name_ok raw).2]
  else []

/-- The normalization notice (cli.py lines 263-268). -/
def normalizedDisplay (raw slug : String) : List String :=
  if raw ≠ slug then
    ["Warning: Project name '" ++ raw ++ "' normalized to '" ++ slug ++ "'."]
  else []

/-- The derived-slug info lines (cli.py lines 272-273). -/
def derivedDisplay (slug pslug : String) : List String :=
  ["Derived PyPI slug: " ++ slug, "Derived Python package slug: " ++ pslug]

/-- `_process_project_name` from cli.py, parametrised by the availability
result. Returns the outcome and all lines displayed, in order. -/
def _process_project_name (pypi : PypiResult) (project_name_arg : String) :
    ProcessOutcome × List String :=
  if project_name_arg = "" then
    (ProcessOutcome.exited 1, ["Error: Project name cannot be empty."])
  else
    if (has_invalid_characters project_name_arg).1 then
      (ProcessOutcome.exited 1,
        ["Error: " ++ optStr (has_invalid_characters project_name_arg).2])
    else
      let pypi_slug := pep503_normalize project_name_arg
      let python_slug := derive_python_package_slug pypi_slug
      let pc := _perform_project_name_checks pypi project_name_arg pypi_slug python_slug
      (ProcessOutcome.ok ⟨project_name_arg, pypi_slug, python_slug, pc.1⟩,
        nameOkDisplay project_name_arg ++ normalizedDisplay project_name_arg pypi_slug ++
          derivedDisplay pypi_slug python_slug ++ pc.2)

/-- Helper: on a non-fatal name `_process_project_name` assembles exactly the
details whose warning list is availability warnings followed by identifier
warnings, and displays the pep503 notice, the normalization notice, the info
lines and the check display, in order. -/
theorem process_not_fatal (pypi : PypiResult) (raw : String)
    (hne : raw ≠ "") (hgate : (has_invalid_characters raw).1 = false) :
    _process_project_name pypi raw =
      (ProcessOutcome.ok ⟨raw, pep503_normalize raw,
          derive_python_package_slug (pep503_normalize raw),
          availabilityWarnings pypi (pep503_normalize raw) ++
            identifierWarnings raw (derive_python_package_slug (pep503_normalize raw))⟩,
        nameOkDisplay raw ++ normalizedDisplay raw (pep503_normalize raw) ++
          derivedDisplay (pep503_normalize raw)
            (derive_python_package_slug (pep503_normalize raw)) ++
          (_perform_project_name_checks pypi raw (pep503_normalize raw)
            (derive_python_package_slug (pep503_normalize raw))).2) := by
  unfold _process_project_name
  rw [if_neg hne, if_neg (by simp [hgate])]
  rfl

/-- Helper: on a raw name whose gate fails, `_process_project_name` exits
with code 1, displaying only the gate's error. -/
theorem process_fatal_invalid (pypi : PypiResult) (raw : String)
    (hne : raw ≠ "") (hgate : (has_invalid_characters raw).1 = true) :
    _process_project_name pypi raw =
      (ProcessOutcome.exited 1, ["Error: " ++ optStr (has_invalid_characters raw).2]) := by
  unfold _process_project_name
  rw [if_neg hne, if_pos hgate]

/-- C6: an empty raw name, or one containing a character outside the accepted
set, makes the operation exit with code 1 for every availability result (so
before any availability lookup, slug derivation or scaffolding could
matter), displaying exactly one fatal error line; no `ok` details — hence no
WarningList — are ever produced, so the fatal error is not collected as a
warning. -/
theorem fatal_gate_aborts (pypi : PypiResult) (raw : String)
    (h : raw = "" ∨ (has_invalid_characters raw).1 = true) :
    (_process_project_name pypi raw).1 = ProcessOutcome.exited 1 ∧
      (∃ msg, (_process_project_name pypi raw).2 = ["Error: " ++ msg]) ∧
      ∀ d : ProjectNameDetails, (_process_project_name pypi raw).1 ≠ ProcessOutcome.ok d := by
  have key : _process_project_name pypi raw =
      (ProcessOutcome.exited 1, (_process_project_name pypi raw).2) ∧
      ∃ msg, (_process_project_name pypi raw).2 = ["Error: " ++ msg] := by
    rcases h with h | h
    · subst h
      exact ⟨rfl, "Project name cannot be empty.", rfl⟩
    · have hne : raw ≠ "" := by
        intro he
        subst he
        exact absurd h (by decide)
      rw [process_fatal_invalid pypi raw hne h]
      exact ⟨rfl, optStr (has_invalid_characters raw).2, rfl⟩
  refine ⟨?_, key.2, ?_⟩
  · rw [key.1]
  · intro d hd
    rw [key.1] at hd
    exact ProcessOutcome.noConfusion hd

/-- C6 witness: the name `"bad!name"` (the `!` is outside the accepted set)
at a concrete availability result. -/
theorem fatal_gate_aborts_witness :
    (_process_project_name ⟨none, none⟩ "bad!name").1 = ProcessOutcome.exited 1 ∧
      (∃ msg, (_process_project_name ⟨none, none⟩ "bad!name").2 = ["Error: " ++ msg]) ∧
      ∀ d : ProjectNameDetails,
        (_process_project_name ⟨none, none⟩ "bad!name").1 ≠ ProcessOutcome.ok d :=
  fatal_gate_aborts ⟨none, none⟩ "bad!name" (Or.inr rfl)

/-- C7 counterexample: with the lookup returning `isTaken = null` and an
error message that is present but empty (`some ""`), the code appends no
warning at all — the claim requires exactly one failure warning whenever an
error message is present. (`if pypi_error_msg:` tests Python truthiness, so
an empty-string error message is treated as no error.) -/
theorem availability_fold_claim_counterexample :
    (PypiResult.mk none (some "")).error_msg ≠ none ∧
      availabilityWarnings ⟨none, some ""⟩ "pkg" = [] :=
  ⟨by decide, rfl⟩

/-- C7 (amended): the availability result folds into the warnings as exactly
one of three outcomes, where "error message present" means present and
non-empty (the source tests Python truthiness): a non-empty error message
appends exactly one warning naming it; otherwise a "taken" report appends
exactly one warning recommending a different name; otherwise nothing is
appended. -/
theorem availability_fold_three_way (pypi : PypiResult) (slug : String) :
    (∀ e, pypi.error_msg = some e → e ≠ "" →
        availabilityWarnings pypi slug = [pypiFailWarning slug e]) ∧
      ((pypi.error_msg = none ∨ pypi.error_msg = some "") → pypi.is_taken = some true →
        availabilityWarnings pypi slug = [pypiTakenWarning slug]) ∧
      ((pypi.error_msg = none ∨ pypi.error_msg = some "") → pypi.is_taken ≠ some true →
        availabilityWarnings pypi slug = []) := by
  refine ⟨?_, ?_, ?_⟩
  · intro e he hne
    simp [availabilityWarnings, he, pyTruthyOptStr, optStr, hne]
  · intro he ht
    rcases he with he | he <;>
      simp [availabilityWarnings, he, ht, pyTruthyOptStr, pyTruthyOptBool]
  · intro he ht
    have htf : pyTruthyOptBool pypi.is_taken = false := by
      cases hv : pypi.is_taken with
      | none => rfl
      | some b =>
        cases b with
        | true => exact absurd hv ht
        | false => rfl
    rcases he with he | he <;>
      simp [availabilityWarnings, he, htf, pyTruthyOptStr]

/-- C2 counterexample: for raw name `"a_b_c_d"` (which fails the
registry-slug convention check: 3 underscores) with the lookup reporting
"taken" and the derived identifier `"a_b_c_d"` also failing the convention
check, the WarningList is exactly [taken-warning, identifier-warning]: the
registry-slug diagnostic is not in the list at all, contradicting the
claimed registry-slug-first order. -/
theorem warning_order_claim_counterexample :
    (pep503_name_ok "a_b_c_d").1 = false ∧
      (_process_project_name ⟨some true, none⟩ "a_b_c_d").1 =
        ProcessOutcome.ok ⟨"a_b_c_d", "a-b-c-d", "a_b_c_d",
          [pypiTakenWarning "a-b-c-d",
            pythonSlugWarning "a_b_c_d" "a_b_c_d" pep503UnderscoreMsg]⟩ ∧
      pep503UnderscoreMsg ∉
        [pypiTakenWarning "a-b-c-d",
          pythonSlugWarning "a_b_c_d" "a_b_c_d" pep503UnderscoreMsg] :=
  ⟨rfl, rfl, by decide⟩

/-- C2 (amended): past the character-validity gate the WarningList handed to
the caller is the availability warnings followed by the package-identifier
warnings, in that order (the registry-slug diagnostic is displayed but never
inserted into the list); in particular, when the lookup reports "taken"
(with no error message) and the derived identifier fails the convention
check, the list is exactly [taken-warning, identifier-warning] — the
PyPI-taken warning strictly before the package-identifier warning. -/
theorem warning_order_amended (pypi : PypiResult) (raw : String)
    (hne : raw ≠ "") (hgate : (has_invalid_characters raw).1 = false) :
    ∃ d : ProjectNameDetails,
      (_process_project_name pypi raw).1 = ProcessOutcome.ok d ∧
        d.name_warnings =
          availabilityWarnings pypi (pep503_normalize raw) ++
            identifierWarnings raw (derive_python_package_slug (pep503_normalize raw)) ∧
        (pypi.error_msg = none → pypi.is_taken = some true →
          ∀ m, is_valid_python_package_name
              (derive_python_package_slug (pep503_normalize raw)) = (false, some m) →
            d.name_warnings =
              [pypiTakenWarning (pep503_normalize raw),
                pythonSlugWarning (derive_python_package_slug (pep503_normalize raw)) raw m]) := by
  rw [process_not_fatal pypi raw hne hgate]
  refine ⟨_, rfl, rfl, ?_⟩
  intro he ht m hm
  show availabilityWarnings pypi (pep503_normalize raw) ++
      identifierWarnings raw (derive_python_package_slug (pep503_normalize raw)) = _
  rw [(availability_fold_three_way pypi (pep503_normalize raw)).2.1 (Or.inl he) ht]
  unfold identifierWarnings
  rw [hm]
  rfl

/-- C2 witness: raw name `"x_y_z_w"`, lookup "taken", derived identifier
`"x_y_z_w"` failing the convention check. -/
theorem warning_order_amended_witness :
    ∃ d : ProjectNameDetails,
      (_process_project_name ⟨some true, none⟩ "x_y_z_w").1 = ProcessOutcome.ok d ∧
        d.name_warnings =
          availabilityWarnings ⟨some true, none⟩ (pep503_normalize "x_y_z_w") ++
            identifierWarnings "x_y_z_w"
              (derive_python_package_slug (pep503_normalize "x_y_z_w")) ∧
        ((PypiResult.mk (some true) none).error_msg = none →
          (PypiResult.mk (some true) none).is_taken = some true →
          ∀ m, is_valid_python_package_name
              (derive_python_package_slug (pep503_normalize "x_y_z_w")) = (false, some m) →
            d.name_warnings =
              [pypiTakenWarning (pep503_normalize "x_y_z_w"),
                pythonSlugWarning (derive_python_package_slug (pep503_normalize "x_y_z_w"))
                  "x_y_z_w" m]) :=
  warning_order_amended ⟨some true, none⟩ "x_y_z_w" (by decide) rfl

/-- C3 counterexample: for raw name `"x__y__z"` the registry-slug check
fails (4 underscores), yet the WarningList surfaced at the proceed/abort
decision is empty — the diagnostic is only displayed, never collected. -/
theorem slug_warning_claim_counterexample :
    (pep503_name_ok "x__y__z").1 = false ∧
      (_process_project_name ⟨some false, none⟩ "x__y__z").1 =
        ProcessOutcome.ok ⟨"x__y__z", "x-y-z", "x_y_z", []⟩ ∧
      (_process_project_name ⟨some false, none⟩ "x__y__z").2 =
        ["Warning: Project name 'x__y__z': Error: Project name cannot contain too many underscores.",
          "Warning: Project name 'x__y__z' normalized to 'x-y-z'.",
          "Derived PyPI slug: x-y-z",
          "Derived Python package slug: x_y_z"] :=
  ⟨rfl, rfl, rfl⟩

/-- C3 (amended): when the registry-slug convention check on the raw name
fails (and the fatal gate passes), its diagnostic is displayed as a warning
message, but it is NOT appended to the WarningList surfaced at the
proceed/abort decision point: that list consists solely of the availability
and package-identifier warnings. -/
theorem slug_warning_displayed_not_collected (pypi : PypiResult) (raw : String)
    (hne : raw ≠ "") (hgate : (has_invalid_characters raw).1 = false)
    (hfail : (pep503_name_ok raw).1 = false) :
    ("Warning: Project name '" ++ raw ++ "': " ++ optStr (pep503_name_ok raw).2)
        ∈ (_process_project_name pypi raw).2 ∧
      ∃ d : ProjectNameDetails,
        (_process_project_name pypi raw).1 = ProcessOutcome.ok d ∧
          d.name_warnings =
            availabilityWarnings pypi (pep503_normalize raw) ++
              identifierWarnings raw (derive_python_package_slug (pep503_normalize raw)) := by
  rw [process_not_fatal pypi raw hne hgate]
  constructor
  · have hd : nameOkDisplay raw =
        ["Warning: Project name '" ++ raw ++ "': " ++ optStr (pep503_name_ok raw).2] := by
      unfold nameOkDisplay
      rw [if_pos (by simp [hfail])]
    refine List.mem_append_left _ (List.mem_append_left _ (List.mem_append_left _ ?_))
    rw [hd]
    exact List.mem_singleton.mpr rfl
  · exact ⟨_, rfl, rfl⟩

/-- C3 witness: raw name `"my___lib"` (fails the registry-slug check with 3
underscores) at a concrete availability result. -/
theorem slug_warning_displayed_not_collected_witness :
    ("Warning: Project name '" ++ "my___lib" ++ "': " ++
        optStr (pep503_name_ok "my___lib").2)
        ∈ (_process_project_name ⟨some false, none⟩ "my___lib").2 ∧
      ∃ d : ProjectNameDetails,
        (_process_project_name ⟨some false, none⟩ "my___lib").1 = ProcessOutcome.ok d ∧
          d.name_warnings =
            availabilityWarnings ⟨some false, none⟩ (pep503_normalize "my___lib") ++
              identifierWarnings "my___lib"
                (derive_python_package_slug (pep503_normalize "my___lib")) :=
  slug_warning_displayed_not_collected ⟨some false, none⟩ "my___lib" (by decide) rfl rfl

/-! ### interactive_wizard.py -/

/-- One character of Python `str.strip()` default whitespace: the exact set
of code points CPython's `str` treats as whitespace (`Py_UNICODE_ISSPACE`):
U+0009..U+000D, U+001C..U+001F, U+0020, U+0085, U+00A0, U+1680,
U+2000..U+200A, U+2028, U+2029, U+202F, U+205F and U+3000. -/
def isPySpace (c : Char) : Bool :=
  decide ((9 ≤ c.toNat ∧ c.toNat ≤ 13) ∨ (28 ≤ c.toNat ∧ c.toNat ≤ 31) ∨
    c.toNat = 32 ∨ c.toNat = 133 ∨ c.toNat = 160 ∨ c.toNat = 5760 ∨
    (8192 ≤ c.toNat ∧ c.toNat ≤ 8202) ∨ c.toNat = 8232 ∨ c.toNat = 8233 ∨
    c.toNat = 8239 ∨ c.toNat = 8287 ∨ c.toNat = 12288)

/-- Python `str.strip()`: drop leading and trailing whitespace. -/
def pyStrip (s : String) : String :=
  ⟨((s.data.dropWhile isPySpace).reverse.dropWhile isPySpace).reverse⟩

/-- Python `str.lower()`, applied by the wizard only inside the test
`input().strip().lower() == "no"`. The ASCII fragment of the case-mapping
table is exact for that test: in the full Unicode table the lowercase
preimages of `'n'` and `'o'` are exactly `{'n','N'}` and `{'o','O'}` (no
non-ASCII character lower-cases into ASCII, and no character lower-cases to
the two-character string `"no"`), so for every reply this ASCII model's
`== "no"` outcome equals Python's. -/
def pyLowerStr (s : String) : String :=
  ⟨s.data.map Char.toLower⟩

/-- Python truthiness of the `Optional[List[str]]` parameter `name_warnings`:
`None` and `[]` are falsy. -/
def wizardTruthy : Option (List String) → Bool
  | none => false
  | some l => !l.isEmpty

/-- Outcome of one `collect_project_details` run: the returned value and
whether the proceed prompt was issued. -/
structure WizardRun where
  result : Option (List (String × String))
  prompted : Bool

/-- `collect_project_details` from interactive_wizard.py, shallowly embedded:
`proceed_reply` is the line `input()` returns at the proceed prompt, and
`collected` stands for the detail dictionary the prompt helpers
(`prompt_for_value`, `prompt_for_choice`) would gather from the terminal and
git config once the wizard proceeds. The prompt is issued exactly when
`name_warnings` is truthy, and the wizard returns `None` exactly when,
prompted, `input().strip().lower() == "no"`. -/
def collect_project_details (project_name : String)
    (name_warnings : Option (List String)) (proceed_reply : String)
    (collected : List (String × String)) : WizardRun :=
  let _ := project_name
  if wizardTruthy name_warnings then
    if pyLowerStr (pyStrip proceed_reply) = "no" then ⟨none, true⟩
    else ⟨some collected, true⟩
  else ⟨some collected, false⟩

/-- C10: with a truthy (non-`None`, non-empty) warning list the wizard
prompts, and returns `None` exactly when the reply — stripped of whitespace
(Python's full `str.strip()` set, so e.g. a trailing U+00A0 is stripped) and
lower-cased — is the string `"no"`; every other reply, including the empty
default and `"n"`, proceeds to detail collection; with an empty or absent
warning list no prompt is issued and it proceeds. -/
theorem wizard_abort_iff (project_name : String) (name_warnings : Option (List String))
    (reply : String) (collected : List (String × String)) :
    ((collect_project_details project_name name_warnings reply collected).result = none ↔
        (wizardTruthy name_warnings = true ∧ pyLowerStr (pyStrip reply) = "no")) ∧
      ((collect_project_details project_name name_warnings reply collected).prompted =
        wizardTruthy name_warnings) ∧
      ((collect_project_details project_name name_warnings reply collected).result = none ∨
        (collect_project_details project_name name_warnings reply collected).result =
          some collected) ∧
      (collect_project_details "p" (some ["w"]) "" [("a", "b")]).result = some [("a", "b")] ∧
      (collect_project_details "p" (some ["w"]) "n" [("a", "b")]).result = some [("a", "b")] ∧
      (collect_project_details "p" (some ["w"]) " No " [("a", "b")]).result = none ∧
      (collect_project_details "p" (some ["w"]) "no\u00A0" [("a", "b")]).result = none ∧
      (collect_project_details "p" (some []) "no" [("a", "b")]).prompted = false ∧
      (collect_project_details "p" none "no" [("a", "b")]).prompted = false := by
  refine ⟨?_, ?_, ?_, rfl, rfl, rfl, rfl, rfl, rfl⟩
  · unfold collect_project_details
    by_cases ht : wizardTruthy name_warnings
    · by_cases hr : pyLowerStr (pyStrip reply) = "no"
      · simp [ht, hr]
      · simp [ht, hr]
    · simp [ht]
  · unfold collect_project_details
    by_cases ht : wizardTruthy name_warnings
    · by_cases hr : pyLowerStr (pyStrip reply) = "no"
      · simp [ht, hr]
      · simp [ht, hr]
    · simp [ht]
  · unfold collect_project_details
    by_cases ht : wizardTruthy name_warnings
    · by_cases hr : pyLowerStr (pyStrip reply) = "no"
      · simp [ht, hr]
      · simp [ht, hr]
    · simp [ht]

/-! ### Non-interactive details (cli.py) -/

/-- `DEFAULT_LICENSE` from interactive_wizard.py. -/
def DEFAULT_LICENSE : String := "MIT"

/-- `DEFAULT_PYTHON_VERSION` from interactive_wizard.py. -/
def DEFAULT_PYTHON_VERSION : String := "3.11"

/-- `NonInteractiveProjectDetailsArgs` from cli.py. -/
structure NonInteractiveProjectDetailsArgs where
  author : Option String
  email : Option String
  github_username : Option String
  description : Option String
  license_choice : Option String
  python_version : Option String
  name_warnings : List String
  project_name : String

/-- One iteration of the field-resolution loop of
`_get_project_details_non_interactive`: the CLI value if it `is not None`,
else the environment value if present, else the default if any, else `""`. -/
def resolveDetail (cli_val env_val default_val : Option String) : String :=
  match cli_val with
  | some v => v
  | none =>
    match env_val with
    | some v => v
    | none =>
      match default_val with
      | some v => v
      | none => ""

/-- `_get_project_details_non_interactive` from cli.py, with the `.env`
lookup (`load_from_env` of components/config_loader.py, not in the snapshot;
spec §6 "environment/.env-sourced key-value pairs") passed in as `env`.
Returns the details — `none` exactly when a required field is missing — and
the displayed lines (warnings first, then the missing-field report). -/
def _get_project_details_non_interactive (env : String → Option String)
    (args : NonInteractiveProjectDetailsArgs) :
    Option (List (String × String)) × List String :=
  let warningLines :=
    if args.name_warnings.isEmpty then []
    else
      "Warnings were found during project name checks (non-interactive mode):" ::
        args.name_warnings.map (fun w => "Warning: " ++ w)
  let author_name := resolveDetail args.author (env "AUTHOR_NAME") none
  let author_email := resolveDetail args.email (env "AUTHOR_EMAIL") none
  let details := [
    ("author_name", author_name),
    ("author_email", author_email),
    ("github_username", resolveDetail args.github_username (env "GITHUB_USERNAME") none),
    ("project_description", resolveDetail args.description (env "PROJECT_DESCRIPTION") none),
    ("license", resolveDetail args.license_choice (env "LICENSE") (some DEFAULT_LICENSE)),
    ("python_version_preference",
      resolveDetail args.python_version (env "PYTHON_VERSION") (some DEFAULT_PYTHON_VERSION))]
  let missing_fields :=
    (if author_name = "" then ["author_name"] else []) ++
      (if author_email = "" then ["author_email"] else [])
  if missing_fields.isEmpty then
    (some details, warningLines)
  else
    (none,
      warningLines ++
        ("Error: The following required fields are missing in non-interactive mode:" ::
          missing_fields.map (fun f => "  - " ++ f)) ++
        ["Please provide these values via CLI flags or .env file."])

theorem non_interactive_result_none_iff (env : String → Option String)
    (args : NonInteractiveProjectDetailsArgs) :
    (_get_project_details_non_interactive env args).1 = none ↔
      (resolveDetail args.author (env "AUTHOR_NAME") none = "" ∨
        resolveDetail args.email (env "AUTHOR_EMAIL") none = "") := by
  unfold _get_project_details_non_interactive
  by_cases ha : resolveDetail args.author (env "AUTHOR_NAME") none = "" <;>
    by_cases hb : resolveDetail args.email (env "AUTHOR_EMAIL") none = "" <;>
    simp [ha, hb]

theorem non_interactive_logs_warnings (env : String → Option String)
    (args : NonInteractiveProjectDetailsArgs) (hw : args.name_warnings ≠ [])
    (x : String) (hx : x ∈ args.name_warnings) :
    ("Warning: " ++ x) ∈ (_get_project_details_non_interactive env args).2 := by
  have hwl : args.name_warnings.isEmpty = false := by
    cases h : args.name_warnings with
    | nil => exact absurd h hw
    | cons y ys => rfl
  have hmem : ("Warning: " ++ x) ∈
      ("Warnings were found during project name checks (non-interactive mode):" ::
        args.name_warnings.map (fun w => "Warning: " ++ w)) :=
    List.mem_cons_of_mem _ (List.mem_map_of_mem _ hx)
  unfold _get_project_details_non_interactive
  by_cases ha : resolveDetail args.author (env "AUTHOR_NAME") none = "" <;>
    by_cases hb : resolveDetail args.email (env "AUTHOR_EMAIL") none = "" <;>
    simp only [ha, hb, hwl] <;>
    simp [hmem, List.mem_append] <;>
    exact Or.inr (Or.inl ⟨x, hx, rfl⟩)

/-- C9: each non-interactive project-detail field resolves with precedence
CLI flag over environment value over fixed default (empty string when none
applies); the invocation fails — returns `none` — exactly when the merged
author name or author email is unset (empty), and whichever required
identity fields are missing are all reported at once in the displayed
missing-field lines. -/
theorem non_interactive_details_resolution (env : String → Option String)
    (args : NonInteractiveProjectDetailsArgs) :
    (∀ v e d, resolveDetail (some v) e d = v) ∧
      (∀ v d, resolveDetail none (some v) d = v) ∧
      (∀ d, resolveDetail none none (some d) = d) ∧
      resolveDetail none none none = "" ∧
      ((_get_project_details_non_interactive env args).1 = none ↔
        (resolveDetail args.author (env "AUTHOR_NAME") none = "" ∨
          resolveDetail args.email (env "AUTHOR_EMAIL") none = "")) ∧
      ((_get_project_details_non_interactive env args).1 = none ∨
        (_get_project_details_non_interactive env args).1 = some [
          ("author_name", resolveDetail args.author (env "AUTHOR_NAME") none),
          ("author_email", resolveDetail args.email (env "AUTHOR_EMAIL") none),
          ("github_username", resolveDetail args.github_username (env "GITHUB_USERNAME") none),
          ("project_description", resolveDetail args.description (env "PROJECT_DESCRIPTION") none),
          ("license", resolveDetail args.license_choice (env "LICENSE") (some DEFAULT_LICENSE)),
          ("python_version_preference",
            resolveDetail args.python_version (env "PYTHON_VERSION") (some DEFAULT_PYTHON_VERSION))]) ∧
      (resolveDetail args.author (env "AUTHOR_NAME") none = "" →
        "  - author_name" ∈ (_get_project_details_non_interactive env args).2) ∧
      (resolveDetail args.email (env "AUTHOR_EMAIL") none = "" →
        "  - author_email" ∈ (_get_project_details_non_interactive env args).2) := by
  refine ⟨fun v e d => rfl, fun v d => rfl, fun d => rfl, rfl,
    non_interactive_result_none_iff env args, ?_, ?_, ?_⟩
  · by_cases ha : resolveDetail args.author (env "AUTHOR_NAME") none = ""
    · exact Or.inl ((non_interactive_result_none_iff env args).mpr (Or.inl ha))
    · by_cases hb : resolveDetail args.email (env "AUTHOR_EMAIL") none = ""
      · exact Or.inl ((non_interactive_result_none_iff env args).mpr (Or.inr hb))
      · refine Or.inr ?_
        unfold _get_project_details_non_interactive
        simp [ha, hb]
  · intro ha
    unfold _get_project_details_non_interactive
    by_cases hb : resolveDetail args.email (env "AUTHOR_EMAIL") none = "" <;>
      simp [ha, hb, List.mem_append]
  · intro hb
    unfold _get_project_details_non_interactive
    by_cases ha : resolveDetail args.author (env "AUTHOR_NAME") none = "" <;>
      simp [ha, hb, List.mem_append]

/-- C8: accumulated warnings never abort the operation by themselves. With a
non-empty warning list the interactive wizard issues the confirmation prompt
and the empty reply (the default) proceeds to detail collection; the
non-interactive path displays every warning as a logged line and computes
exactly the result it would compute with no warnings at all — only missing
required fields, never warnings, make it fail (and only the
character-validity gate is fatal, per the C6 theorem). -/
theorem warnings_never_abort_alone (project_name : String) (w : String)
    (ws : List String) (collected : List (String × String))
    (env : String → Option String) (args : NonInteractiveProjectDetailsArgs)
    (hw : args.name_warnings ≠ []) :
    ((collect_project_details project_name (some (w :: ws)) "" collected).prompted = true ∧
        (collect_project_details project_name (some (w :: ws)) "" collected).result =
          some collected) ∧
      ((_get_project_details_non_interactive env args).1 =
        (_get_project_details_non_interactive env
          { args with name_warnings := [] }).1) ∧
      (∀ x ∈ args.name_warnings,
        ("Warning: " ++ x) ∈ (_get_project_details_non_interactive env args).2) := by
  refine ⟨⟨rfl, rfl⟩, ?_, ?_⟩
  · unfold _get_project_details_non_interactive
    by_cases ha : resolveDetail args.author (env "AUTHOR_NAME") none = "" <;>
      by_cases hb : resolveDetail args.email (env "AUTHOR_EMAIL") none = "" <;>
      simp [ha, hb]
  · intro x hx
    exact non_interactive_logs_warnings env args hw x hx

/-- C8 witness: one warning `"w1"`, empty interactive reply, and a concrete
non-interactive invocation carrying that warning. -/
theorem warnings_never_abort_alone_witness :
    ((collect_project_details "proj" (some ("w1" :: [])) "" []).prompted = true ∧
        (collect_project_details "proj" (some ("w1" :: [])) "" []).result = some []) ∧
      ((_get_project_details_non_interactive (fun _ => none)
          ⟨some "A", some "E", none, none, none, none, ["w1"], "proj"⟩).1 =
        (_get_project_details_non_interactive (fun _ => none)
          { (⟨some "A", some "E", none, none, none, none, ["w1"], "proj"⟩ :
              NonInteractiveProjectDetailsArgs) with name_warnings := [] }).1) ∧
      (∀ x ∈ (⟨some "A", some "E", none, none, none, none, ["w1"], "proj"⟩ :
          NonInteractiveProjectDetailsArgs).name_warnings,
        ("Warning: " ++ x) ∈ (_get_project_details_non_interactive (fun _ => none)
          ⟨some "A", some "E", none, none, none, none, ["w1"], "proj"⟩).2) :=
  warnings_never_abort_alone "proj" "w1" [] [] (fun _ => none)
    ⟨some "A", some "E", none, none, none, none, ["w1"], "proj"⟩ (by decide)

end PyHatchery
